import Mathlib

/-!
Shallow embedding of `src/georeference.py` (the geometric transform pipeline:
world-file parsing, affine pixel-to-grid mapping, optional region rotation,
grid-to-geographic projection, and the XML metadata sidecar parse), together
with theorems settling the specification claims about it.

Modelling conventions:
- Python floats are modelled as real numbers (`ℝ`) for the transform math and
  as rationals (`ℚ`) for the world-file parser, where decidable evaluation at
  concrete inputs is needed.
- A world-file line is `Option ℚ`: `some v` when the line is a valid
  floating-point literal of value `v`, `none` when `float(line)` would raise
  `ValueError`.
- Python exceptions escaping a function are the `Except` error branch.
- The `pyproj` transformer (an external library producing a
  (longitude, latitude) pair) is an abstract function parameter
  `ℝ → ℝ → ℝ × ℝ`; the code under verification only reorders its output.
- `math.radians`, `math.cos`, `math.sin` are `Real` operations.
-/

namespace Georeference

/-- Python exceptions that the world-file parser `parse_jpw` can let escape:
`IndexError` from `jpw[k]` on a short list, `ValueError` from `float(line)`
on a non-numeric line.  `FormatError` is the structured error the
specification demands; it is listed so that theorems can state whether the
code ever produces it. -/
inductive PyError where
  | indexError
  | valueError
  | formatError
  deriving DecidableEq, Repr

/-- `[float(line.strip()) for line in f.readlines()]`: converts every line to
a number, raising `ValueError` (the error branch) at the first line that is
not a valid floating-point literal. -/
def parseFloatLines : List (Option ℚ) → Except PyError (List ℚ)
  | [] => .ok []
  | line :: rest =>
    match line with
    | none => .error .valueError
    | some v =>
      match parseFloatLines rest with
      | .error e => .error e
      | .ok vs => .ok (v :: vs)

/-- Embedding of `parse_jpw` (src/georeference.py lines 40-63).  The file
contents are given as the list of its lines.  The code builds the list of
floats (possibly raising `ValueError`) and then reads `jpw[0]` .. `jpw[5]`,
which raises `IndexError` when fewer than six lines are present; extra lines
beyond the sixth are silently ignored.  Returns the six parameters
(pixel_size_x, rotation_x, rotation_y, pixel_size_y, upper_left_x,
upper_left_y). -/
def parse_jpw (lines : List (Option ℚ)) :
    Except PyError (ℚ × ℚ × ℚ × ℚ × ℚ × ℚ) :=
  match parseFloatLines lines with
  | .error e => .error e
  | .ok jpw =>
    if h : 6 ≤ jpw.length then
      .ok (jpw.get ⟨0, by omega⟩, jpw.get ⟨1, by omega⟩, jpw.get ⟨2, by omega⟩,
           jpw.get ⟨3, by omega⟩, jpw.get ⟨4, by omega⟩, jpw.get ⟨5, by omega⟩)
    else
      .error .indexError

/-- The six world-file parameters, in the fixed order the JPW file stores
them (src/georeference.py lines 54-61). -/
structure JpwParams where
  pixel_size_x : ℝ
  rotation_x : ℝ
  rotation_y : ℝ
  pixel_size_y : ℝ
  upper_left_x : ℝ
  upper_left_y : ℝ

/-- `math.radians`: degrees to radians. -/
noncomputable def radians (degrees : ℝ) : ℝ := degrees * (Real.pi / 180)

/-- Embedding of `pixel_to_geo` (src/georeference.py lines 66-77): the
six-parameter world-file affine transform from pixel coordinates to grid
coordinates. -/
def pixel_to_geo (pixel_x pixel_y : ℝ) (jpw_params : JpwParams) : ℝ × ℝ :=
  let x_geo := (pixel_x * jpw_params.pixel_size_x) + (pixel_y * jpw_params.rotation_x) +
    jpw_params.upper_left_x
  let y_geo := (pixel_y * jpw_params.pixel_size_y) + (pixel_x * jpw_params.rotation_y) +
    jpw_params.upper_left_y
  (x_geo, y_geo)

/-- Embedding of `bng_to_latlon` (src/georeference.py lines 33-38),
parameterized by the `pyproj` transformer, which yields
(longitude, latitude); the function returns (latitude, longitude). -/
def bng_to_latlon (transform : ℝ → ℝ → ℝ × ℝ) (x_bng y_bng : ℝ) : ℝ × ℝ :=
  let lonlat := transform x_bng y_bng
  (lonlat.2, lonlat.1)

/-- The rotation steps inlined in `pixel_to_geo_with_transform`
(src/georeference.py lines 104-115): translate the pixel relative to the
center, rotate by the angle in degrees, translate back. -/
noncomputable def rotate (pixel center : ℝ × ℝ) (angle_degrees : ℝ) : ℝ × ℝ :=
  let rel_x := pixel.1 - center.1
  let rel_y := pixel.2 - center.2
  let theta := radians angle_degrees
  let rotated_x := rel_x * Real.cos theta - rel_y * Real.sin theta
  let rotated_y := rel_x * Real.sin theta + rel_y * Real.cos theta
  (rotated_x + center.1, rotated_y + center.2)

/-- Embedding of `pixel_to_geo_with_transform` (src/georeference.py lines
80-124), parameterized by the `pyproj` transformer used by its call to
`bng_to_latlon`.  When `center` or `height` is absent it delegates to
`pixel_to_geo`.  Otherwise it defaults `width` by Python's
`width = width or height` (falsy `None` and `0.0` both default), rotates the
pixel about the center, applies the affine transform, computes
`bng_to_latlon x_geo y_geo` into a local that is never returned, and returns
the grid pair `(x_geo, y_geo)`. -/
noncomputable def pixel_to_geo_with_transform (transform : ℝ → ℝ → ℝ × ℝ)
    (pixel_x pixel_y : ℝ) (jpw_params : JpwParams)
    (center : Option (ℝ × ℝ)) (height width : Option ℝ)
    (rotation_angle : ℝ) : ℝ × ℝ :=
  match center, height with
  | none, _ => pixel_to_geo pixel_x pixel_y jpw_params
  | some _, none => pixel_to_geo pixel_x pixel_y jpw_params
  | some c, some h =>
    let _width : ℝ := match width with
      | none => h
      | some w => if w = 0 then h else w
    let rel_x := pixel_x - c.1
    let rel_y := pixel_y - c.2
    let theta := radians rotation_angle
    let rotated_x := rel_x * Real.cos theta - rel_y * Real.sin theta
    let rotated_y := rel_x * Real.sin theta + rel_y * Real.cos theta
    let translated_x := rotated_x + c.1
    let translated_y := rotated_y + c.2
    let x_geo := (translated_x * jpw_params.pixel_size_x) +
      (translated_y * jpw_params.rotation_x) + jpw_params.upper_left_x
    let y_geo := (translated_y * jpw_params.pixel_size_y) +
      (translated_x * jpw_params.rotation_y) + jpw_params.upper_left_y
    let _latlon := bng_to_latlon transform x_geo y_geo
    (x_geo, y_geo)

/-- The fields `parse_xml_metadata` looks up in a well-formed metadata
sidecar; `none` models a field absent from the XML tree. -/
structure XmlRoot where
  copyright : Option String
  kmReference : Option String
  dateFlown : Option String
  coordinates : Option String
  lensFocalLength : Option String
  resolution : Option String

/-- The three states of the metadata sidecar file that determine
`parse_xml_metadata`'s behaviour: absent on disk, present but malformed XML
(`ET.parse` raises `ParseError`), or present and well-formed. -/
inductive XmlFile where
  | missing
  | malformed
  | wellFormed (root : XmlRoot)

/-- What `parse_xml_metadata` produces: the metadata mapping as an
association list, plus the lines printed as warnings. -/
structure MetadataResult where
  metadata : List (String × String)
  warnings : List String
  deriving DecidableEq, Repr

/-- Embedding of `parse_xml_metadata` (src/georeference.py lines 128-156).
A missing file yields an empty mapping; a `ParseError` from malformed XML is
caught, a warning is printed, and an empty mapping is returned; otherwise
each of the six fields is looked up with default `N/A`.  The function is
total: no error branch exists in its type. -/
def parse_xml_metadata (xml_file : String) (file : XmlFile) : MetadataResult :=
  match file with
  | .missing => ⟨[], []⟩
  | .malformed =>
    ⟨[], ["Error parsing " ++ xml_file ++ ". Returning empty metadata."]⟩
  | .wellFormed root =>
    ⟨[("copyright", root.copyright.getD "N/A"),
      ("km_reference", root.kmReference.getD "N/A"),
      ("date_flown", root.dateFlown.getD "N/A"),
      ("coordinates", root.coordinates.getD "N/A"),
      ("lens_focal_length", root.lensFocalLength.getD "N/A"),
      ("resolution", root.resolution.getD "N/A")], []⟩

/-- Helper: on the box branch (center and height both present) the transform
is exactly the affine map of the rotated pixel, for every transformer. -/
lemma pixel_to_geo_with_transform_box_eq (transform : ℝ → ℝ → ℝ × ℝ)
    (pixel_x pixel_y : ℝ) (jpw_params : JpwParams) (c : ℝ × ℝ) (h : ℝ)
    (width : Option ℝ) (rotation_angle : ℝ) :
    pixel_to_geo_with_transform transform pixel_x pixel_y jpw_params
        (some c) (some h) width rotation_angle =
      pixel_to_geo (rotate (pixel_x, pixel_y) c rotation_angle).1
        (rotate (pixel_x, pixel_y) c rotation_angle).2 jpw_params := rfl

/-- Helper: rotating by angle 0 is the identity on the pixel. -/
lemma rotate_zero (p c : ℝ × ℝ) : rotate p c 0 = p := by
  obtain ⟨px, py⟩ := p
  simp [rotate, radians]

/-- C1: the world-file parse never produces the structured `FormatError` the
specification requires: a 7-line numeric file parses successfully (silently
ignoring the extra line), a 5-line file raises `IndexError` (indexing past a
short list), and a 6-line file with a non-numeric line lets `ValueError`
propagate unannotated. -/
theorem parse_jpw_no_format_error :
    parse_jpw [some 1, some 0, some 0, some 1, some 0, some 0, some 5] =
      .ok (1, 0, 0, 1, 0, 0) ∧
    parse_jpw [some 1, some 0, some 0, some 1, some 0] = .error .indexError ∧
    parse_jpw [some 1, some 0, none, some 1, some 0, some 0] =
      .error .valueError := by
  refine ⟨?_, ?_, ?_⟩ <;> rfl

/-- C2: on the rotation path, for every projection transformer the region
transform returns exactly the grid coordinate of the rotated pixel, and the
result is independent of the transformer: the geographic conversion it
computes is silently discarded, never part of the returned value. -/
theorem pixel_to_geo_with_transform_discards_geographic
    (t₁ t₂ : ℝ → ℝ → ℝ × ℝ) (pixel_x pixel_y : ℝ) (jpw_params : JpwParams)
    (c : ℝ × ℝ) (h : ℝ) (width : Option ℝ) (rotation_angle : ℝ) :
    pixel_to_geo_with_transform t₁ pixel_x pixel_y jpw_params
        (some c) (some h) width rotation_angle =
      pixel_to_geo (rotate (pixel_x, pixel_y) c rotation_angle).1
        (rotate (pixel_x, pixel_y) c rotation_angle).2 jpw_params ∧
    pixel_to_geo_with_transform t₁ pixel_x pixel_y jpw_params
        (some c) (some h) width rotation_angle =
      pixel_to_geo_with_transform t₂ pixel_x pixel_y jpw_params
        (some c) (some h) width rotation_angle := ⟨rfl, rfl⟩

/-- C5: at rotation_angle = 0 the region transform agrees exactly with the
plain point transform of the unrotated pixel, for every pixel, center,
height and width. -/
theorem rotation_zero_is_identity (transform : ℝ → ℝ → ℝ × ℝ)
    (pixel_x pixel_y : ℝ) (jpw_params : JpwParams)
    (center : Option (ℝ × ℝ)) (height width : Option ℝ) :
    pixel_to_geo_with_transform transform pixel_x pixel_y jpw_params
        center height width 0 =
      pixel_to_geo pixel_x pixel_y jpw_params := by
  match center, height with
  | none, _ => rfl
  | some _, none => rfl
  | some c, some h =>
    rw [pixel_to_geo_with_transform_box_eq, rotate_zero]

/-- C6: rotating a pixel about a center by θ and rotating the result about
the same center by -θ reproduces the pixel exactly, over real-number
semantics, for all pixels, centers and angles. -/
theorem rotate_round_trip (p c : ℝ × ℝ) (θ : ℝ) :
    rotate (rotate p c θ) c (-θ) = p := by
  obtain ⟨px, py⟩ := p
  obtain ⟨cx, cy⟩ := c
  simp only [rotate, radians, neg_mul, Real.cos_neg, Real.sin_neg, Prod.mk.injEq]
  constructor
  · linear_combination (px - cx) * Real.sin_sq_add_cos_sq (θ * (Real.pi / 180))
  · linear_combination (py - cy) * Real.sin_sq_add_cos_sq (θ * (Real.pi / 180))

/-- C7: the metadata sidecar parse is total (its type has no error branch)
and never fatal: a missing file yields the empty mapping with no warning,
and malformed XML yields the empty mapping with a warning logged. -/
theorem parse_xml_metadata_never_fatal (xml_file : String) (file : XmlFile) :
    (file = .missing →
      parse_xml_metadata xml_file file = ⟨[], []⟩) ∧
    (file = .malformed →
      (parse_xml_metadata xml_file file).metadata = [] ∧
      (parse_xml_metadata xml_file file).warnings ≠ []) := by
  constructor
  · rintro rfl; rfl
  · rintro rfl
    exact ⟨rfl, by simp [parse_xml_metadata]⟩

/-- Witness for C7 at a concrete path: both the missing-file and the
malformed-XML cases. -/
theorem parse_xml_metadata_never_fatal_witness :
    parse_xml_metadata "meta.xml" .missing = ⟨[], []⟩ ∧
    (parse_xml_metadata "meta.xml" .malformed).metadata = [] ∧
    (parse_xml_metadata "meta.xml" .malformed).warnings ≠ [] :=
  ⟨(parse_xml_metadata_never_fatal "meta.xml" .missing).1 rfl,
   (parse_xml_metadata_never_fatal "meta.xml" .malformed).2 rfl⟩

/-- C3: the affine pixel-to-grid mapping `pixel_to_geo` returns exactly
x_geo = pixel_x * psx + pixel_y * rotx + originx and
y_geo = pixel_y * psy + pixel_x * roty + originy, for every pixel coordinate
and every six-tuple of world-file parameters. -/
theorem pixel_to_geo_affine_formula (pixel_x pixel_y psx rotx roty psy originx originy : ℝ) :
    pixel_to_geo pixel_x pixel_y ⟨psx, rotx, roty, psy, originx, originy⟩ =
      (pixel_x * psx + pixel_y * rotx + originx,
       pixel_y * psy + pixel_x * roty + originy) := rfl

/-- C4: with world-file parameters (0.25, 0, 0, -0.25, 400000, 300000), the
point transform maps pixel (0,0) to grid (400000, 300000) and pixel
(100,100) to grid (400025, 299975); the same holds through the orchestrating
transform when no rotation spec is given. -/
theorem pixel_to_geo_concrete_values :
    pixel_to_geo 0 0 ⟨0.25, 0, 0, -0.25, 400000, 300000⟩ = (400000, 300000) ∧
    pixel_to_geo 100 100 ⟨0.25, 0, 0, -0.25, 400000, 300000⟩ = (400025, 299975) ∧
    pixel_to_geo_with_transform (fun x y => (y, x)) 100 100
        ⟨0.25, 0, 0, -0.25, 400000, 300000⟩ none none none 0 = (400025, 299975) := by
  refine ⟨?_, ?_, ?_⟩ <;>
    simp only [pixel_to_geo_with_transform, pixel_to_geo, Prod.mk.injEq] <;>
    norm_num

/-- C8: `bng_to_latlon` returns (latitude, longitude), explicitly swapping
the (longitude, latitude) pair produced by the underlying projection
transformer, for every transformer and every grid coordinate. -/
theorem bng_to_latlon_reorders (transform : ℝ → ℝ → ℝ × ℝ) (x_bng y_bng : ℝ) :
    bng_to_latlon transform x_bng y_bng =
      ((transform x_bng y_bng).2, (transform x_bng y_bng).1) := rfl

/-- C9: when the center is `None` or the height is `None`,
`pixel_to_geo_with_transform` returns exactly `pixel_to_geo` of the pixel,
with the rotation angle and width ignored. -/
theorem pixel_to_geo_with_transform_degrades (transform : ℝ → ℝ → ℝ × ℝ)
    (pixel_x pixel_y : ℝ) (jpw_params : JpwParams)
    (center : Option (ℝ × ℝ)) (height width : Option ℝ) (rotation_angle : ℝ)
    (h : center = none ∨ height = none) :
    pixel_to_geo_with_transform transform pixel_x pixel_y jpw_params
        center height width rotation_angle =
      pixel_to_geo pixel_x pixel_y jpw_params := by
  match center, height with
  | none, _ => rfl
  | some _, none => rfl
  | some _, some _ => simp at h

/-- Witness for C9 at a concrete input: center absent, a height, a width and
a nonzero angle supplied. -/
theorem pixel_to_geo_with_transform_degrades_witness :
    ((none : Option (ℝ × ℝ)) = none ∨ (some (3 : ℝ)) = none) ∧
    pixel_to_geo_with_transform (fun x y => (y, x)) 1 2 ⟨1, 0, 0, 1, 0, 0⟩
        none (some 3) (some 4) 30 = pixel_to_geo 1 2 ⟨1, 0, 0, 1, 0, 0⟩ :=
  ⟨Or.inl rfl,
   pixel_to_geo_with_transform_degrades (fun x y => (y, x)) 1 2 ⟨1, 0, 0, 1, 0, 0⟩
     none (some 3) (some 4) 30 (Or.inl rfl)⟩

/-- C10: once an extent is present, the numeric values of height and width
never influence the result: for any two non-`None` heights and any two
widths (including `None`), `pixel_to_geo_with_transform` gives the same
coordinates. -/
theorem pixel_to_geo_with_transform_ignores_extent (transform : ℝ → ℝ → ℝ × ℝ)
    (pixel_x pixel_y : ℝ) (jpw_params : JpwParams)
    (center : Option (ℝ × ℝ)) (rotation_angle : ℝ)
    (h₁ h₂ : Option ℝ) (w₁ w₂ : Option ℝ)
    (hh₁ : h₁ ≠ none) (hh₂ : h₂ ≠ none) :
    pixel_to_geo_with_transform transform pixel_x pixel_y jpw_params
        center h₁ w₁ rotation_angle =
      pixel_to_geo_with_transform transform pixel_x pixel_y jpw_params
        center h₂ w₂ rotation_angle := by
  match center, h₁, h₂ with
  | none, _, _ => rfl
  | some _, none, _ => exact absurd rfl hh₁
  | some _, some _, none => exact absurd rfl hh₂
  | some c, some a, some b => rfl

/-- Witness for C10 at a concrete input: two different heights and widths,
identical output. -/
theorem pixel_to_geo_with_transform_ignores_extent_witness :
    (some (5 : ℝ) ≠ (none : Option ℝ)) ∧ (some (7 : ℝ) ≠ (none : Option ℝ)) ∧
    pixel_to_geo_with_transform (fun x y => (y, x)) 1 2 ⟨1, 0, 0, 1, 0, 0⟩
        (some (10, 10)) (some 5) none 45 =
      pixel_to_geo_with_transform (fun x y => (y, x)) 1 2 ⟨1, 0, 0, 1, 0, 0⟩
        (some (10, 10)) (some 7) (some 2) 45 :=
  ⟨Option.some_ne_none 5, Option.some_ne_none 7,
   pixel_to_geo_with_transform_ignores_extent (fun x y => (y, x)) 1 2
     ⟨1, 0, 0, 1, 0, 0⟩ (some (10, 10)) 45 (some 5) (some 7) none (some 2)
     (Option.some_ne_none 5) (Option.some_ne_none 7)⟩

end Georeference
